import Mathlib

/-!
Verification of the extraction-orchestration core of `doc-to-text`.

The Go sources are shallowly embedded: pure fragments become Lean
functions, file-system state becomes explicit `String → Option String`
maps, and external processes (OCR engines, converters) become oracle
parameters recording their observable outcome.  All definitions follow
the Go code in `src/`; definitions whose name starts with `spec` are
instead written from the natural-language specification and compared
with the embedded code.
-/

namespace DocToText

/-! ### String helpers (models of Go `strings` functions) -/

/-- Model of Go `unicode.IsSpace` restricted to the ASCII whitespace that
the repository's data can contain. -/
def isGoSpace (c : Char) : Bool :=
  c = ' ' ∨ c = '\t' ∨ c = '\n' ∨ c = '\r'

/-- Trim on character lists: drop whitespace from both ends. -/
def trimList (l : List Char) : List Char :=
  ((l.dropWhile isGoSpace).reverse.dropWhile isGoSpace).reverse

/-- Model of Go `strings.TrimSpace`. -/
def goTrimSpace (s : String) : String :=
  ⟨trimList s.data⟩

/-- Does `pat` occur at the head of `l`? -/
def listStartsWith : List Char → List Char → Bool
  | [], _ => true
  | _ :: _, [] => false
  | a :: as, b :: bs => a = b && listStartsWith as bs

/-- Does `pat` occur anywhere inside `l`? -/
def listContainsSub (pat : List Char) : List Char → Bool
  | [] => listStartsWith pat []
  | c :: cs => listStartsWith pat (c :: cs) || listContainsSub pat cs

/-- Model of Go `strings.Contains`. -/
def strContains (s pat : String) : Bool :=
  listContainsSub pat.data s.data

/-- ASCII lower-casing of one character (the repository only compares
ASCII extensions and error texts). -/
def goToLowerChar (c : Char) : Char :=
  if 'A' ≤ c ∧ c ≤ 'Z' then Char.ofNat (c.toNat + 32) else c

/-- Model of Go `strings.ToLower`. -/
def goToLower (s : String) : String :=
  ⟨s.data.map goToLowerChar⟩

/-! ### Error taxonomy (`pkg/utils` error handling, `src/cmd/root.go`) -/

/-- The `ErrorType` constants of the Go error package. -/
inductive ErrorType where
  | validation
  | io
  | network
  | ocr
  | conversion
  | system
  | unsupported
  | timeout
  | permission
  | notFound
deriving DecidableEq, Repr

/-- The string value of each `ErrorType` constant. -/
def ErrorType.str : ErrorType → String
  | .validation => "validation"
  | .io => "io"
  | .network => "network"
  | .ocr => "ocr"
  | .conversion => "conversion"
  | .system => "system"
  | .unsupported => "unsupported"
  | .timeout => "timeout"
  | .permission => "permission"
  | .notFound => "not_found"

/-- Go `error` values reaching the retry/classification machinery: an
`*AppError` (type, message, `Recoverable` flag; `appWrap` is the case
with a non-nil `Cause`), the two context sentinel errors, or a plain
`fmt.Errorf` error. -/
inductive GoError where
  | app (t : ErrorType) (msg : String) (recoverable : Bool)
  | appWrap (t : ErrorType) (msg : String) (recoverable : Bool) (cause : GoError)
  | ctxDeadlineExceeded
  | ctxCanceled
  | plain (msg : String)
deriving DecidableEq, Repr

/-- Model of `AppError.Error()` / `error.Error()`. -/
def errString : GoError → String
  | .app t msg _ => t.str ++ ": " ++ msg
  | .appWrap t msg _ c => t.str ++ ": " ++ msg ++ " (caused by: " ++ errString c ++ ")"
  | .ctxDeadlineExceeded => "context deadline exceeded"
  | .ctxCanceled => "context canceled"
  | .plain msg => msg

/-- Model of `errors.Is(err, context.DeadlineExceeded) || errors.Is(err,
context.Canceled)`: `errors.Is` unwraps along the `Cause` chain. -/
def isCtxErr : GoError → Bool
  | .ctxDeadlineExceeded => true
  | .ctxCanceled => true
  | .appWrap _ _ _ c => isCtxErr c
  | _ => false

/-- Model of `classifyError` (`src/cmd/root.go`). -/
def classifyError (e : GoError) : ErrorType :=
  if isCtxErr e then .timeout
  else
    let s := goToLower (errString e)
    if strContains s "permission denied" || strContains s "access denied" then .permission
    else if strContains s "no such file" || strContains s "not found" then .notFound
    else if strContains s "network" || strContains s "connection" then .network
    else if strContains s "ocr" || strContains s "extraction" then .ocr
    else if strContains s "convert" || strContains s "parsing" then .conversion
    else if strContains s "invalid" || strContains s "bad" then .validation
    else .system

/-- Model of `IsRecoverable`: an `*AppError` answers its `Recoverable`
flag; other errors are classified, and only timeout/network classes are
recoverable. -/
def isRecoverable : GoError → Bool
  | .app _ _ r => r
  | .appWrap _ _ r _ => r
  | e =>
    let t := classifyError e
    t = .timeout || t = .network

/-- Model of `WrapError(err, errorType, message)` for a non-nil `err`;
`none` as `errorType` models the empty-string type.  The constructed
`AppError` literal leaves `Recoverable` at its zero value `false`. -/
def wrapError (e : GoError) (etype : Option ErrorType) (msg : String) : GoError :=
  match etype, e with
  | none, .app t m _ => .app t (msg ++ ": " ++ m) false
  | none, .appWrap t m _ c => .appWrap t (msg ++ ": " ++ m) false c
  | none, e => .appWrap (classifyError e) msg false e
  | some t, e => .appWrap t msg false e

/-- Model of `NewValidationError` (nil cause). -/
def newValidationError (msg : String) : GoError := .app .validation msg false

/-- Model of `NewOCRError` (nil cause). -/
def newOCRError (msg : String) : GoError := .app .ocr msg false

/-- Model of `NewNotFoundError` (nil cause). -/
def newNotFoundError (msg : String) : GoError := .app .notFound msg false

/-- Model of `NewUnsupportedError` (nil cause). -/
def newUnsupportedError (msg : String) : GoError := .app .unsupported msg false

/-! ### Retry executor (`WithRetry`, `src/cmd/root.go`)

`fn` is the operation's outcome at each attempt number (1-based);
`none` is success.  The instrumented recursion additionally counts how
many times `fn` was invoked — the observable needed to state "retried"
versus "returned immediately".  The registered recovery strategies
cannot change the returned value (a failed recovery falls through to
the next loop iteration anyway), so the handler is not a parameter. -/

def withRetryTraceGo (fn : Nat → Option GoError) (maxAttempts attempt : Nat)
    (lastErr : Option GoError) (calls : Nat) :
    Nat → Option GoError × Nat
  | 0 =>
    -- `attempt > maxAttempts`: the loop has ended
    (match lastErr with
     | none => (none, calls)
     | some e =>
       (some (wrapError e none s!"operation failed after {maxAttempts} attempts"), calls))
  | fuel + 1 =>
    match fn attempt with
    | none => (none, calls + 1)
    | some err =>
      if isRecoverable err then
        withRetryTraceGo fn maxAttempts (attempt + 1) (some err) (calls + 1) fuel
      else
        (some err, calls + 1)

/-- Model of `WithRetry(fn, maxAttempts, eh)`: the returned error.  The
fuel argument `maxAttempts` is the number of loop iterations
(`attempt = 1 .. maxAttempts`). -/
def withRetry (fn : Nat → Option GoError) (maxAttempts : Nat) : Option GoError :=
  (withRetryTraceGo fn maxAttempts 1 none 0 maxAttempts).1

/-- The number of times `WithRetry` invokes `fn`. -/
def withRetryCalls (fn : Nat → Option GoError) (maxAttempts : Nat) : Nat :=
  (withRetryTraceGo fn maxAttempts 1 none 0 maxAttempts).2

/-! ### Configuration (`pkg/config`, `pkg/types`)

`OCRStrategy` and `ContentType` are string types in Go; they stay
strings here, with the constants below. -/

/-- Constant `types.OCRStrategyInteractive`. -/
def ocrStrategyInteractive : String := "interactive"

/-- Constant `types.OCRStrategyLLMCaller`. -/
def ocrStrategyLLMCaller : String := "llm-caller"

/-- Constant `types.OCRStrategySuryaOCR`. -/
def ocrStrategySuryaOCR : String := "surya_ocr"

/-- Constant `types.ContentTypeText`. -/
def contentTypeText : String := "text"

/-- Constant `types.ContentTypeImage`. -/
def contentTypeImage : String := "image"

/-- The runtime settings of `config.Config` that the orchestration core
reads.  `minTextThreshold` is a Go `int`, hence `Int`. -/
structure Config where
  ocrStrategy : String
  llmTemplate : String
  contentType : String
  skipExisting : Bool
  minTextThreshold : Int
deriving DecidableEq, Repr

/-- Constant `constants.DefaultMaxRetries`. -/
def defaultMaxRetries : Nat := 3

/-- Constant `constants.MaxFileSize` (100 MB). -/
def maxFileSize : Nat := 100 * 1024 * 1024

/-! ### Path helpers (`path/filepath`) -/

/-- Model of Go `filepath.Ext`: the suffix of the final path element
beginning at its last dot, or the empty string. -/
def goFilepathExt (path : String) : String :=
  let revBase := path.data.reverse.takeWhile (fun c => c ≠ '/')
  let revAfter := revBase.takeWhile (fun c => c ≠ '.')
  if revAfter.length = revBase.length then ""
  else ⟨'.' :: revAfter.reverse⟩

/-- The `Extension` field of `types.FileInfo` as computed by
`utils.GetFileInfo`: `strings.ToLower(strings.TrimPrefix(filepath.Ext(filePath), "."))`. -/
def fileInfoExtension (path : String) : String :=
  let e := goFilepathExt path
  goToLower (match e.data with
    | '.' :: rest => ⟨rest⟩
    | _ => e)

/-! ### Extractor factory (`CreateExtractorWithFallbacks`,
`src/pkg/constants/constants.go`, package `core`) -/

/-- The names registered by `registerDefaultExtractors`. -/
def defaultRegistered : List String := ["text", "html", "ocr", "ebook", "calibre"]

/-- Append `name` to the chain when it is registered, modelling
`if e, exists := f.extractors[name]; exists { append }`. -/
def addIfRegistered (registered : List String) (name : String) (l : List String) :
    List String :=
  if registered.contains name then l ++ [name] else l

/-- Model of `DefaultExtractorFactory.CreateExtractorWithFallbacks`:
the ordered chain of extractor names for a file extension, or the
"no suitable extractors" error when the chain is empty. -/
def createExtractorWithFallbacks (registered : List String) (cfg : Config)
    (extension : String) : Except GoError (List String) :=
  let ext := goToLower extension
  let extractors :=
    if ext = "txt" ∨ ext = "md" ∨ ext = "json" ∨ ext = "xml" then
      addIfRegistered registered "text" []
    else if ext = "html" ∨ ext = "htm" ∨ ext = "mhtml" ∨ ext = "mht" then
      addIfRegistered registered "calibre" (addIfRegistered registered "html" [])
    else if ext = "epub" ∨ ext = "mobi" then
      addIfRegistered registered "ebook" []
    else if ext = "pdf" then
      if cfg.contentType = contentTypeText then
        addIfRegistered registered "ocr" (addIfRegistered registered "calibre" [])
      else
        addIfRegistered registered "ocr" []
    else if ext = "jpg" ∨ ext = "jpeg" ∨ ext = "png" ∨ ext = "gif" ∨ ext = "bmp" then
      addIfRegistered registered "ocr" []
    else
      addIfRegistered registered "calibre" (addIfRegistered registered "ocr" [])
  if extractors.length = 0 then
    .error (.plain s!"no suitable extractors found for file type: {ext}")
  else
    .ok extractors

/-- Written from the specification's chain table, amended where the code
disagrees: the plain-text group is txt/md/json/xml only (csv and code
files fall to the unrecognized branch), and the image group is the
literal jpg/jpeg/png/gif/bmp list. -/
def specChainTable (cfg : Config) (extension : String) : List String :=
  let ext := goToLower extension
  if ext = "txt" ∨ ext = "md" ∨ ext = "json" ∨ ext = "xml" then
    ["text"]
  else if ext = "html" ∨ ext = "htm" ∨ ext = "mhtml" ∨ ext = "mht" then
    ["html", "calibre"]
  else if ext = "epub" ∨ ext = "mobi" then
    ["ebook"]
  else if ext = "pdf" then
    if cfg.contentType = contentTypeText then ["calibre", "ocr"] else ["ocr"]
  else if ext = "jpg" ∨ ext = "jpeg" ∨ ext = "png" ∨ ext = "gif" ∨ ext = "bmp" then
    ["ocr"]
  else
    ["ocr", "calibre"]

/-! ### Fallback-chain execution
(`DefaultFileProcessor.attemptExtractionWithFallbacks`, `src/unnamed/part_002`) -/

/-- Decidable equality for `Except` results. -/
instance exceptDecEq {ε α : Type} [DecidableEq ε] [DecidableEq α] :
    DecidableEq (Except ε α)
  | .error e, .error f => decidable_of_iff (e = f) (by simp)
  | .ok a, .ok b => decidable_of_iff (a = b) (by simp)
  | .error _, .ok _ => isFalse (fun h => Except.noConfusion h)
  | .ok _, .error _ => isFalse (fun h => Except.noConfusion h)

/-- An extractor in the chain, together with the outcome its `Extract`
call produces on the current input (external behaviour oracle). -/
structure ExtractorSpec where
  name : String
  outcome : Except GoError String
deriving DecidableEq, Repr

/-- Model of `interfaces.ExtractionResult`.  Here `errMsg` is the Go `Error` string
field (zero value `""`); `processTime` is retained but not modelled. -/
structure ExtractionResult where
  text : String := ""
  source : String := ""
  extractorUsed : String := ""
  fallbackUsed : Bool := false
  attemptedExtractors : List String := []
  errMsg : String := ""
  processTime : Nat := 0
deriving DecidableEq, Repr

/-- One chain position: `WithRetry` around `extractor.Extract` plus the
minimum-length validation.  Returns the extracted text (set only on
success, else the zero value `""`) and the retry loop's error. -/
def attemptOne (cfg : Config) (name : String) (outcome : Except GoError String) :
    String × Option GoError :=
  let thr := cfg.minTextThreshold
  let fn : Nat → Option GoError := fun _ =>
    match outcome with
    | .error e => some (wrapError e (some .ocr) ("extractor '" ++ name ++ "' failed"))
    | .ok t =>
      if (t.length : Int) < thr then
        some (newValidationError s!"extracted text below minimum threshold ({thr} chars)")
      else
        none
  let r := withRetry fn defaultMaxRetries
  match r, outcome with
  | none, .ok t => (t, none)
  | _, _ => ("", r)

/-- The two hard-stop conditions of the chain loop (used by the claims;
the loop spells them out separately because their messages differ). -/
def hardStop (cfg : Config) (isPDF : Bool) (name : String) : Bool :=
  (isPDF && cfg.contentType = contentTypeImage && name = "ocr") ||
  (cfg.ocrStrategy ≠ ocrStrategyInteractive && name = "ocr")

/-- The extractor loop of `attemptExtractionWithFallbacks`, carrying the
loop index `i`, the `attemptedExtractors` accumulator, the
`fallbackUsed` flag and `lastError`. -/
def attemptLoop (cfg : Config) (inputFile : String) (isPDF : Bool) :
    List ExtractorSpec → Nat → List String → Bool → Option GoError →
    ExtractionResult × Option GoError
  | [], _, attempted, fallbackUsed, lastError =>
    -- loop exhausted without a break: text is still ""
    (match lastError with
     | some e =>
       ({ source := inputFile, extractorUsed := "",
          errMsg := "all extractors failed, last error: " ++ errString e,
          fallbackUsed := fallbackUsed, attemptedExtractors := attempted }, some e)
     | none =>
       ({ text := "", source := inputFile, extractorUsed := "",
          fallbackUsed := fallbackUsed, attemptedExtractors := attempted }, none))
  | e :: rest, i, attempted, fallbackUsed, lastError =>
    let attempted := attempted ++ [e.name]
    let fallbackUsed := if i > 0 then true else fallbackUsed
    match attemptOne cfg e.name e.outcome with
    | (t, none) =>
      -- success: break out of the loop with `text = t`
      if t = "" then
        -- post-loop check `text == "" && lastError != nil`
        match lastError with
        | some e' =>
          ({ source := inputFile, extractorUsed := "",
             errMsg := "all extractors failed, last error: " ++ errString e',
             fallbackUsed := fallbackUsed, attemptedExtractors := attempted }, some e')
        | none =>
          ({ text := t, source := inputFile, extractorUsed := e.name,
             fallbackUsed := fallbackUsed, attemptedExtractors := attempted }, none)
      else
        ({ text := t, source := inputFile, extractorUsed := e.name,
           fallbackUsed := fallbackUsed, attemptedExtractors := attempted }, none)
    | (_, some err) =>
      if isPDF && cfg.contentType = contentTypeImage && e.name = "ocr" then
        ({ source := inputFile, extractorUsed := "",
           errMsg := "OCR extraction failed for image-based PDF: " ++ errString err,
           fallbackUsed := false, attemptedExtractors := attempted }, some err)
      else if cfg.ocrStrategy ≠ ocrStrategyInteractive && e.name = "ocr" then
        ({ source := inputFile, extractorUsed := "",
           errMsg := "OCR extraction failed for chosen strategy " ++ cfg.ocrStrategy ++
             ": " ++ errString err,
           fallbackUsed := false, attemptedExtractors := attempted }, some err)
      else
        attemptLoop cfg inputFile isPDF rest (i + 1) attempted fallbackUsed (some err)

/-- Model of `ext := strings.ToLower(filepath.Ext(inputFile)); isPDF := ext == ".pdf"`. -/
def isPDFPath (inputFile : String) : Bool :=
  goToLower (goFilepathExt inputFile) = ".pdf"

/-- Model of `DefaultFileProcessor.attemptExtractionWithFallbacks`. -/
def attemptExtractionWithFallbacks (cfg : Config) (inputFile : String)
    (extractors : List ExtractorSpec) : ExtractionResult × Option GoError :=
  attemptLoop cfg inputFile (isPDFPath inputFile) extractors 0 [] false none

/-! ### OCR pipeline page loop (`OCRExtractor.processPDFByPages` and
`processPageWithProgress`, `src/pkg/ocr/ocr.go`) -/

/-- The contribution of one page to the `strings.Builder`: the page
marker, the page text, and a blank separator line (written only for
non-empty page text). -/
def pageMark (n : Nat) (t : String) : String :=
  s!"--- Page {n} ---\n" ++ t ++ "\n\n"

/-- The aggregation loop of `processPDFByPages` over the per-page
outcomes (`processPageWithProgress` results), starting at page `n`:
a failed page is logged and skipped, an empty page contributes
nothing. -/
def aggregatePagesGo (n : Nat) : List (Except GoError String) → String
  | [] => ""
  | o :: rest =>
    (match o with
     | .error _ => ""
     | .ok t => if t ≠ "" then pageMark n t else "") ++ aggregatePagesGo (n + 1) rest

/-- Model of `processPDFByPages` after the split step: `outcomes` lists the
per-page results for pages `1..totalPages` (so `totalPages =
outcomes.length`).  A zero page count is the fatal "no pages" error;
an empty trimmed aggregate is the "no text extracted" error. -/
def processPDFByPages (outcomes : List (Except GoError String)) :
    Except GoError String :=
  if outcomes.length = 0 then
    .error (newOCRError "no pages found in PDF")
  else
    let finalText := goTrimSpace (aggregatePagesGo 1 outcomes)
    if finalText = "" then
      .error (newOCRError "no text extracted from any page")
    else
      .ok finalText

/-- The observable environment of one `processPageWithProgress` call:
the page's cached text file (content at `pageTextPath`), whether the
page PDF exists, the engine's direct-PDF capability, the rasterizer's
outcome, and the engine's outcome. -/
structure PageEnv where
  pageTextFile : Option String
  pagePDFExists : Bool
  supportsDirectPDF : Bool
  convertErr : Option GoError
  engineResult : Except GoError String

/-- Model of `OCRExtractor.processPageWithProgress` for page `n`.
Returns the call's result, the page text file's content afterwards, and
whether the OCR engine was invoked. -/
def processPageWithProgress (n : Nat) (env : PageEnv) :
    Except GoError String × Option String × Bool :=
  match env.pageTextFile with
  | some c => (.ok c, some c, false)
  | none =>
    if env.pagePDFExists then
      let run : Except GoError String → Except GoError String × Option String × Bool :=
        fun res =>
          match res with
          | .error e =>
            (.error (wrapError e (some .ocr) s!"failed to extract text from page {n}"),
             none, true)
          | .ok t =>
            if t ≠ "" then (.ok t, some t, true) else (.ok t, none, true)
      if env.supportsDirectPDF then
        run env.engineResult
      else
        match env.convertErr with
        | some e =>
          (.error (wrapError e (some .conversion) s!"failed to convert page {n} to image"),
           none, false)
        | none => run env.engineResult
    else
      (.error (.plain s!"page PDF not found: page_{n}.pdf"), none, false)

/-! ### Page counting (`OCRExtractor.countPages`, `src/pkg/ocr/ocr.go`;
`OCRExtractor.countExistingPages`, `src/pkg/ocr/extractor.go`) -/

/-- The loop of `countPages`: `present i` models `os.Stat(page_i.pdf)`
succeeding; the fuel argument is the number of loop iterations left
(`10001 - i`, so the loop stops after page 10000). -/
def countPagesAux (present : Nat → Bool) (i count : Nat) : Nat → Nat
  | 0 => count
  | fuel + 1 =>
    if present i then countPagesAux present (i + 1) (count + 1) fuel else count

/-- Model of `OCRExtractor.countPages` (`ocr.go`). -/
def countPages (present : Nat → Bool) : Nat :=
  countPagesAux present 1 0 10000

/-- The loop of `countExistingPages`: `size i` is the page file's byte
size when `os.Stat` succeeds.  A present file of size ≤ 100 is not
counted but does not stop the loop. -/
def countExistingPagesAux (size : Nat → Option Nat) (i count : Nat) : Nat → Nat
  | 0 => count
  | fuel + 1 =>
    match size i with
    | some s =>
      countExistingPagesAux size (i + 1) (if s > 100 then count + 1 else count) fuel
    | none => count

/-- Model of `OCRExtractor.countExistingPages` (`extractor.go`). -/
def countExistingPages (size : Nat → Option Nat) : Nat :=
  countExistingPagesAux size 1 0 10000

/-- Written from the specification: the length of the contiguous run of
present pages starting at page `i`, with `fuel` pages left to inspect
(the code's 10000-page bound). -/
def specContiguousRun (present : Nat → Bool) (i : Nat) : Nat → Nat
  | 0 => 0
  | fuel + 1 => if present i then 1 + specContiguousRun present (i + 1) fuel else 0

/-- Written from the amended specification: walk pages from `i` while
the file exists (at most `fuel` more pages), counting only pages whose
size exceeds 100 bytes. -/
def specFilteredCount (size : Nat → Option Nat) (i : Nat) : Nat → Nat
  | 0 => 0
  | fuel + 1 =>
    match size i with
    | some s => (if s > 100 then 1 else 0) + specFilteredCount size (i + 1) fuel
    | none => 0

/-! ### Surya OCR result parsing (`SuryaOCREngine.parseOCRResults`,
`src/pkg/ocr/engines/surya_ocr.go`) -/

/-- Model of `SuryaTextLine`: the per-line record of the results JSON.
Confidence and geometry are carried (json round-trip) but the parser
discards them; `float64` is modelled by `Rat`. -/
structure SuryaTextLine where
  text : String
  confidence : Rat
  polygon : List (List Rat)
  bbox : List Rat
deriving DecidableEq, Repr

/-- Model of `SuryaPageResult`: one page record. -/
structure SuryaPageResult where
  textLines : List SuryaTextLine
  languages : List String
  imageBbox : List Rat
  page : Int
deriving DecidableEq, Repr

/-- Model of `SuryaOCRResult`: the decoded results JSON, a map from source-file
name to page records.  Modelled as an association list; the Go `range`
over the map iterates in unspecified order, so file order below is the
iteration order, not necessarily document order. -/
def SuryaOCRResult : Type := List (String × List SuryaPageResult)

/-- The extraction loops of `parseOCRResults`: lines whose text is
whitespace-only are skipped, every kept line is written followed by a
newline. -/
def suryaBuilder (results : SuryaOCRResult) : String :=
  String.join (results.map fun entry =>
    String.join (entry.2.map fun page =>
      String.join (page.textLines.map fun line =>
        if goTrimSpace line.text ≠ "" then line.text ++ "\n" else "")))

/-- Model of `SuryaOCREngine.parseOCRResults` after the results JSON has
been decoded. -/
def parseOCRResults (results : SuryaOCRResult) : Except GoError String :=
  let extractedText := goTrimSpace (suryaBuilder results)
  if extractedText = "" then
    .error (.plain "no text found in OCR results")
  else
    .ok extractedText

/-! ### LLM Caller engine (`LLMCallerEngine.ExtractTextFromPDF` /
`ExtractTextFromImage`, `src/pkg/utils/intermediate_manager.go`,
package `ocr`) -/

/-- The observable environment of one engine call: the engine-level
cache (`ocr_data.json` content), whether `llm-caller` was found, the
external run's error, its captured stderr, and the output file's
content after the run. -/
structure LLMRunEnv where
  cache : Option String
  toolFound : Bool
  runErr : Option String
  stderr : String
  outputContent : Option String

/-- The outcome of one LLM engine call: the result, the template passed
to the external tool (`none` when the tool was never invoked), and the
engine cache content afterwards. -/
structure LLMCallOutcome where
  result : Except GoError String
  invokedTemplate : Option String
  cacheAfter : Option String

/-- The shared tail of both engine operations, from template selection
onwards; `defaultTemplate` is `"analyze"` for PDFs and
`"image-to-text"` for images. -/
def llmRunWithTemplate (cfg : Config) (defaultTemplate : String) (env : LLMRunEnv) :
    LLMCallOutcome :=
  let template := if cfg.llmTemplate = "" then defaultTemplate else cfg.llmTemplate
  match env.runErr with
  | some msg =>
    let se := goTrimSpace env.stderr
    if se ≠ "" then
      { result := .error (.plain s!"LLM caller execution failed ({msg}) with stderr: {se}"),
        invokedTemplate := some template, cacheAfter := env.cache }
    else
      { result := .error (.plain s!"LLM caller execution failed: {msg}"),
        invokedTemplate := some template, cacheAfter := env.cache }
  | none =>
    match env.outputContent with
    | none =>
      { result := .error (.plain "failed to read LLM results"),
        invokedTemplate := some template, cacheAfter := env.cache }
    | some content =>
      let text := goTrimSpace content
      { result := .ok text, invokedTemplate := some template, cacheAfter := some text }

/-- Model of `LLMCallerEngine.ExtractTextFromPDF`: cache check, tool
lookup, then the external call with template defaulting to
`"analyze"`. -/
def llmExtractTextFromPDF (cfg : Config) (env : LLMRunEnv) : LLMCallOutcome :=
  match env.cache with
  | some c => { result := .ok c, invokedTemplate := none, cacheAfter := some c }
  | none =>
    if env.toolFound then
      llmRunWithTemplate cfg "analyze" env
    else
      { result := .error (.plain "LLM Caller not found. Please install llm-caller"),
        invokedTemplate := none, cacheAfter := none }

/-- Model of `LLMCallerEngine.ExtractTextFromImage`: identical shape,
template defaulting to `"image-to-text"`. -/
def llmExtractTextFromImage (cfg : Config) (env : LLMRunEnv) : LLMCallOutcome :=
  match env.cache with
  | some c => { result := .ok c, invokedTemplate := none, cacheAfter := some c }
  | none =>
    if env.toolFound then
      llmRunWithTemplate cfg "image-to-text" env
    else
      { result := .error (.plain "LLM Caller not found. Please install llm-caller"),
        invokedTemplate := none, cacheAfter := none }

/-- Model of the CLI-level check in `applyCommandLineOverrides`
(`src/cmd/root.go`): `log.Fatalf` when `--ocr llm-caller` is given
without `--llm_template`. -/
def cliLLMTemplateFatal (ocrStrategyFlag llmTemplateFlag : String) : Bool :=
  ocrStrategyFlag ≠ "" && ocrStrategyFlag = ocrStrategyLLMCaller && llmTemplateFlag = ""

/-! ### File processor facade (`DefaultFileProcessor.ProcessFile`,
`src/unnamed/part_002`) -/

/-- A file system: path to content. -/
def FS : Type := String → Option String

/-- Model of `os.WriteFile`. -/
def fsWrite (fs : FS) (path content : String) : FS :=
  fun p => if p = path then some content else fs p

/-- Model of `DefaultFileProcessor.ProcessFile`.  `oracle` gives each
registered extractor's behaviour on this input (external processes).
Returns the result together with the file system after the run. -/
def processFile (cfg : Config) (oracle : String → Except GoError String)
    (inputFile outputFile : String) (fs : FS) :
    Except GoError (ExtractionResult × FS) :=
  -- validateInputFile, wrapped by ProcessFile
  if inputFile = "" then
    .error (wrapError (newValidationError "input file path cannot be empty")
      (some .validation) "input file validation failed")
  else
    match fs inputFile with
    | none =>
      .error (wrapError (newNotFoundError s!"input file not found: {inputFile}")
        (some .validation) "input file validation failed")
    | some content =>
      -- GetFileInfo (with retry; pure here, so it succeeds), then size check
      if content.length > maxFileSize then
        .error (wrapError (newValidationError "file size exceeds maximum limit")
          (some .validation) "file size validation failed")
      else
        -- skip-existing fast path
        if cfg.skipExisting ∧ outputFile ≠ "" ∧ (fs outputFile).isSome then
          .ok ({ text := (fs outputFile).getD "", source := inputFile,
                 extractorUsed := "cached", processTime := 0 }, fs)
        else
          match createExtractorWithFallbacks defaultRegistered cfg
              (fileInfoExtension inputFile) with
          | .error e => .error (wrapError e (some .unsupported) "no suitable extractor found")
          | .ok names =>
            let (r, err) := attemptExtractionWithFallbacks cfg inputFile
              (names.map fun n => { name := n, outcome := oracle n })
            match err with
            | some e => .error e
            | none =>
              if outputFile ≠ "" then
                .ok (r, fsWrite fs outputFile r.text)
              else
                .ok (r, fs)

/-- Does the string start with a non-whitespace character? -/
def headNonSpace (s : String) : Bool :=
  match s.data with
  | [] => false
  | c :: _ => !isGoSpace c

/-- Does the string end with a non-whitespace character? -/
def lastNonSpace (s : String) : Bool :=
  match s.data.reverse with
  | [] => false
  | c :: _ => !isGoSpace c

/-! ### Concrete instances used by counterexamples and witnesses -/

/-- Pinned-engine configuration used for round-trip checks. -/
def c9cfg : Config := ⟨"surya_ocr", "", "image", true, 10⟩

/-- Extractor behaviour: the plain-text reader succeeds, all else fails. -/
def c9oracle : String → Except GoError String := fun n =>
  if n = "text" then .ok "hello world content" else .error (.plain "tool failed")

/-- A file system holding only the input file. -/
def c9fs : FS := fun p =>
  if p = "a.txt" then some "hello world content" else none

/-- The result of the first concrete run in the C9 witness. -/
def c9result : ExtractionResult :=
  { text := "hello world content", source := "a.txt", extractorUsed := "text",
    fallbackUsed := false, attemptedExtractors := ["text"], errMsg := "",
    processTime := 0 }

/-- A split-output directory whose page files are `page_1.pdf` (200 B),
`page_2.pdf` (50 B) and `page_3.pdf` (200 B). -/
def c6dir : Nat → Option Nat := fun i =>
  if i = 1 then some 200 else if i = 2 then some 50
  else if i = 3 then some 200 else none

/-- The claim's own example: `page_1.pdf`, `page_2.pdf`, `page_4.pdf`
present (all of healthy size), page 3 missing. -/
def c6dirSparse : Nat → Option Nat := fun i =>
  if i = 1 then some 200 else if i = 2 then some 200
  else if i = 4 then some 200 else none

/-- A results JSON with one file record, one page, two text lines whose
`text` fields are both empty. -/
def c7results : SuryaOCRResult :=
  [("f.png", [⟨[⟨"", 0, [], []⟩, ⟨"", 0, [], []⟩], [], [], 1⟩])]

/-- Configuration with a pinned OCR engine, text-first PDF mode. -/
def c2cfg : Config := ⟨"surya_ocr", "", "text", true, 10⟩

/-- Text-first PDF chain where both the converter and OCR fail. -/
def c2chain : List ExtractorSpec :=
  [⟨"calibre", .error (.plain "calibre conversion failed")⟩,
   ⟨"ocr", .error (.plain "surya failed")⟩]

/-- Configuration with a pinned OCR engine, image mode, threshold 10. -/
def c4cfg : Config := ⟨"surya_ocr", "", "image", true, 10⟩

/-- Unknown-extension chain where OCR returns 5 characters (below the
threshold of 10) and the next strategy would return long text. -/
def c4chain : List ExtractorSpec :=
  [⟨"ocr", .ok "12345"⟩, ⟨"calibre", .ok "this is plenty of text"⟩]

/-- An I/O-kind `AppError` (its `Recoverable` flag at the zero value). -/
def c5ioErr : GoError := .app .io "disk write failed" false

/-- Configuration with an empty LLM template. -/
def c8cfg : Config := ⟨"llm-caller", "", "image", true, 10⟩

/-- An engine environment where nothing is cached, the tool is found
and the external call succeeds, producing "hello world". -/
def c8env : LLMRunEnv := ⟨none, true, none, "", some "hello world"⟩

/-! ## Theorems -/

set_option maxHeartbeats 1000000 in
/-- Claim C1, counterexample: for a `csv` file the factory builds the
unknown-extension chain `[ocr, calibre]`, not the claimed plain-text
chain `[text]`. -/
theorem claim_C1_counterexample :
    createExtractorWithFallbacks defaultRegistered c4cfg "csv" = .ok ["ocr", "calibre"] ∧
    (["ocr", "calibre"] : List String) ≠ ["text"] := by
  decide

/-- Claim C1 (amended): the chain table holds with the plain-text group
restricted to txt/md/json/xml (csv and code files take the
unrecognized-extension chain `[ocr, calibre]`) and the image group
being exactly jpg/jpeg/png/gif/bmp; with the default registry the
result is always this non-empty chain, so the "no suitable extractors"
error (raised exactly when the chain is empty) is never reached. -/
theorem claim_C1_theorem (cfg : Config) (extension : String) :
    createExtractorWithFallbacks defaultRegistered cfg extension =
      .ok (specChainTable cfg extension) := by
  simp only [createExtractorWithFallbacks, specChainTable]
  split_ifs <;> simp_all [addIfRegistered, defaultRegistered]

set_option maxHeartbeats 1000000 in
/-- Claim C2, counterexample: text-first PDF with a pinned OCR engine,
converter fails, then OCR fails — the hard stop reports
`attemptedExtractors = ["calibre", "ocr"]`, not `["ocr"]`. -/
theorem claim_C2_counterexample :
    (attemptExtractionWithFallbacks c2cfg "doc.pdf" c2chain).1.attemptedExtractors =
      ["calibre", "ocr"] ∧
    (["calibre", "ocr"] : List String) ≠ ["ocr"] ∧
    (attemptExtractionWithFallbacks c2cfg "doc.pdf" c2chain).2.isSome = true := by
  decide

set_option maxHeartbeats 1000000 in
/-- Claim C4, counterexample: with a pinned OCR engine and threshold 10,
an OCR strategy returning 5 characters is treated as a failure but the
chain does NOT continue — the hard stop fires and the remaining
`calibre` strategy (which would have succeeded) is never attempted. -/
theorem claim_C4_counterexample :
    (attemptExtractionWithFallbacks c4cfg "file.xyz" c4chain).1.attemptedExtractors =
      ["ocr"] ∧
    ("calibre" ∉
      (attemptExtractionWithFallbacks c4cfg "file.xyz" c4chain).1.attemptedExtractors) ∧
    (attemptExtractionWithFallbacks c4cfg "file.xyz" c4chain).2.isSome = true := by
  decide

set_option maxHeartbeats 1000000 in
/-- Claim C5, counterexample: an I/O-kind error is not retried — the
operation is invoked exactly once (not up to the budget of 3) and the
error is returned unwrapped. -/
theorem claim_C5_counterexample :
    withRetry (fun _ => some c5ioErr) 3 = some c5ioErr ∧
    withRetryCalls (fun _ => some c5ioErr) 3 = 1 ∧
    (1 : Nat) ≠ 3 := by
  decide

set_option maxHeartbeats 1000000 in
/-- Claim C6, counterexample: a directory with `page_1.pdf` (200 B),
`page_2.pdf` (50 B), `page_3.pdf` (200 B) and page 4 missing has a
maximal contiguous run of 3 page files starting at page 1, yet
`countExistingPages` returns 2 — files of size ≤ 100 bytes inside the
run are present but not counted. -/
theorem claim_C6_counterexample :
    countExistingPages c6dir = 2 ∧
    (c6dir 1).isSome = true ∧ (c6dir 2).isSome = true ∧ (c6dir 3).isSome = true ∧
    c6dir 4 = none ∧ (2 : Nat) ≠ 3 := by
  decide

set_option maxHeartbeats 1000000 in
/-- Claim C7, counterexample: a record whose two lines both carry empty
`text` parses to the "no text found" error, not to the newline-joined
concatenation of the line texts (which would be `""` or `"\n"`). -/
theorem claim_C7_counterexample :
    parseOCRResults c7results = .error (.plain "no text found in OCR results") ∧
    parseOCRResults c7results ≠ .ok "" ∧
    parseOCRResults c7results ≠ .ok "\n" := by
  decide

set_option maxHeartbeats 1000000 in
/-- Claim C8, counterexample: with an empty configured template the PDF
extraction operation does not fail with a configuration error — it
invokes the external tool with the built-in default template
`"analyze"` and succeeds (the image operation likewise uses
`"image-to-text"`). -/
theorem claim_C8_counterexample :
    (llmExtractTextFromPDF c8cfg c8env).result = .ok "hello world" ∧
    (llmExtractTextFromPDF c8cfg c8env).invokedTemplate = some "analyze" ∧
    (llmExtractTextFromImage c8cfg c8env).result = .ok "hello world" ∧
    (llmExtractTextFromImage c8cfg c8env).invokedTemplate = some "image-to-text" := by
  decide

/-- The accumulator loop of `countPages` computes the capped contiguous
run length. -/
theorem countPagesAux_eq_spec (present : Nat → Bool) :
    ∀ fuel i count, countPagesAux present i count fuel =
      count + specContiguousRun present i fuel := by
  intro fuel
  induction fuel with
  | zero => intro i count; simp [countPagesAux, specContiguousRun]
  | succ f ih =>
    intro i count
    by_cases h : present i
    · simp [countPagesAux, specContiguousRun, h, ih]
      omega
    · simp [countPagesAux, specContiguousRun, h]

/-- The accumulator loop of `countExistingPages` computes the
size-filtered count over the contiguous-by-existence run. -/
theorem countExistingPagesAux_eq_spec (size : Nat → Option Nat) :
    ∀ fuel i count, countExistingPagesAux size i count fuel =
      count + specFilteredCount size i fuel := by
  intro fuel
  induction fuel with
  | zero => intro i count; simp [countExistingPagesAux, specFilteredCount]
  | succ f ih =>
    intro i count
    cases hsz : size i with
    | none => simp [countExistingPagesAux, specFilteredCount, hsz]
    | some s =>
      by_cases hbig : s > 100
      · simp [countExistingPagesAux, specFilteredCount, hsz, hbig, ih]
        omega
      · simp [countExistingPagesAux, specFilteredCount, hsz, hbig, ih]

/-- Claim C6 (amended): `countPages` returns the length of the maximal
contiguous run of page files starting at page 1 capped at the loop's
10000-page bound, and `countExistingPages` additionally counts only
pages whose file size exceeds 100 bytes within that run (a small file
does not stop the walk but is not counted); counting is 1-based and
stops at the first missing `page_N.pdf`, so the claimed
page_1/page_2/page_4 directory is still counted as 2 pages by both
functions. -/
theorem claim_C6_theorem :
    (∀ present, countPages present = specContiguousRun present 1 10000) ∧
    (∀ size, countExistingPages size = specFilteredCount size 1 10000) ∧
    countPages (fun i => decide (i ≤ 2) || decide (i = 4)) = 2 ∧
    countExistingPages c6dirSparse = 2 := by
  refine ⟨fun present => ?_, fun size => ?_, by decide, by decide⟩
  · simpa using countPagesAux_eq_spec present 10000 1 0
  · simpa using countExistingPagesAux_eq_spec size 10000 1 0

/-- When every attempt up to the budget fails with a recoverable error,
the retry loop runs `fuel` more attempts and wraps the last error. -/
theorem withRetryTrace_allRecoverable (fn : Nat → Option GoError) (n : Nat) :
    ∀ fuel attempt lastErr calls, 1 ≤ fuel →
      (∀ k, attempt ≤ k → k < attempt + fuel → ∃ e, fn k = some e ∧ isRecoverable e = true) →
      ∃ e, fn (attempt + fuel - 1) = some e ∧
        withRetryTraceGo fn n attempt lastErr calls fuel =
          (some (wrapError e none s!"operation failed after {n} attempts"), calls + fuel) := by
  intro fuel
  induction fuel with
  | zero => intro attempt lastErr calls h; omega
  | succ f ih =>
    intro attempt lastErr calls _ hall
    obtain ⟨e, he, hrec⟩ := hall attempt (Nat.le_refl _) (by omega)
    cases f with
    | zero =>
      refine ⟨e, by simpa using he, ?_⟩
      simp [withRetryTraceGo, he, hrec]
    | succ f' =>
      obtain ⟨e', he', htr⟩ := ih (attempt + 1) (some e) (calls + 1)
        (by omega) (fun k hk1 hk2 => hall k (by omega) (by omega))
      have hidx : attempt + (f' + 1 + 1) - 1 = attempt + 1 + (f' + 1) - 1 := by omega
      refine ⟨e', ?_, ?_⟩
      · rw [hidx]; exact he'
      · conv_lhs => rw [withRetryTraceGo]
        simp only [he, hrec, if_true]
        rw [htr]
        congr 1
        omega

/-- Claim C5 (amended): `WithRetry` retries only errors judged
recoverable by `IsRecoverable` — for an `AppError` that is its
`Recoverable` flag (false unless explicitly set), and for other errors
a classification as timeout or network; validation, permission,
not-found AND I/O errors are returned immediately after a single
attempt, unwrapped.  When all attempts fail with recoverable errors,
the loop runs the full budget and returns the last error wrapped with
the attempt count. -/
theorem claim_C5_theorem :
    (∀ (fn : Nat → Option GoError) (n : Nat) (e : GoError), 1 ≤ n → fn 1 = some e →
      isRecoverable e = false → withRetry fn n = some e ∧ withRetryCalls fn n = 1) ∧
    (∀ (fn : Nat → Option GoError) (n : Nat), 1 ≤ n →
      (∀ k, 1 ≤ k → k ≤ n → ∃ e, fn k = some e ∧ isRecoverable e = true) →
      ∃ e, fn n = some e ∧
        withRetry fn n = some (wrapError e none s!"operation failed after {n} attempts") ∧
        withRetryCalls fn n = n) := by
  constructor
  · intro fn n e hn h1 hrec
    cases n with
    | zero => omega
    | succ m =>
      constructor
      · simp [withRetry, withRetryTraceGo, h1, hrec]
      · simp [withRetryCalls, withRetryTraceGo, h1, hrec]
  · intro fn n hn hall
    obtain ⟨e, he, htr⟩ := withRetryTrace_allRecoverable fn n n 1 none 0 hn
      (fun k hk1 hk2 => hall k hk1 (by omega))
    refine ⟨e, by simpa using he, ?_, ?_⟩
    · simp [withRetry, htr]
    · simp [withRetryCalls, htr]

/-- Witness for claim C5: the I/O error is returned after one call; a
plain "network down" error is retried three times and wrapped. -/
theorem claim_C5_witness :
    (withRetry (fun _ => some c5ioErr) 3 = some c5ioErr ∧
     withRetryCalls (fun _ => some c5ioErr) 3 = 1) ∧
    (∃ e, some (GoError.plain "network down") = some e ∧
      withRetry (fun _ => some (GoError.plain "network down")) 3 =
        some (wrapError e none "operation failed after 3 attempts") ∧
      withRetryCalls (fun _ => some (GoError.plain "network down")) 3 = 3) :=
  ⟨claim_C5_theorem.1 (fun _ => some c5ioErr) 3 c5ioErr (by decide) rfl (by decide),
   claim_C5_theorem.2 (fun _ => some (GoError.plain "network down")) 3 (by decide)
     (fun k _ _ => ⟨GoError.plain "network down", rfl, by decide⟩)⟩

/-- A failed page contributes exactly what an empty page contributes to
the aggregate: nothing. -/
theorem aggregatePagesGo_error_eq_empty (e : GoError)
    (post : List (Except GoError String)) :
    ∀ (pre : List (Except GoError String)) (n : Nat),
      aggregatePagesGo n (pre ++ .error e :: post) =
        aggregatePagesGo n (pre ++ .ok "" :: post) := by
  intro pre
  induction pre with
  | nil => intro n; simp [aggregatePagesGo]
  | cons x pre ih =>
    intro n
    simp only [List.cons_append, aggregatePagesGo, List.append_eq]
    rw [ih]

/-- A document whose every page produced empty text aggregates to the
empty string. -/
theorem aggregatePagesGo_replicate_empty :
    ∀ (n m : Nat), aggregatePagesGo m (List.replicate n (.ok "")) = "" := by
  intro n
  induction n with
  | zero => intro m; simp [aggregatePagesGo]
  | succ k ih => intro m; simp [List.replicate, aggregatePagesGo, ih]

/-- Claim C3: a per-page OCR failure is recovered locally — the failed
page is skipped and the pipeline's result is the same as if the page
had produced empty text, so the remaining pages are still processed;
the pipeline returns the "no text extracted from any page" error
exactly when the trimmed aggregate is empty; and a document whose every
page completed without error but produced empty text fails with that
same error. -/
theorem claim_C3_theorem (pre post outs : List (Except GoError String))
    (e : GoError) (n : Nat) (houts : outs ≠ []) (hn : 0 < n) :
    processPDFByPages (pre ++ .error e :: post) =
      processPDFByPages (pre ++ .ok "" :: post) ∧
    (processPDFByPages outs = .error (newOCRError "no text extracted from any page") ↔
      goTrimSpace (aggregatePagesGo 1 outs) = "") ∧
    processPDFByPages (List.replicate n (.ok "")) =
      .error (newOCRError "no text extracted from any page") := by
  refine ⟨?_, ?_, ?_⟩
  · simp [processPDFByPages, aggregatePagesGo_error_eq_empty]
  · have hlen : ¬ outs.length = 0 := by
      simpa [List.length_eq_zero] using houts
    simp only [processPDFByPages, hlen, if_false]
    by_cases h : goTrimSpace (aggregatePagesGo 1 outs) = ""
    · simp [h]
    · simp [h]
  · have hn2 : ¬ n = 0 := by omega
    simp [processPDFByPages, hn2, aggregatePagesGo_replicate_empty, goTrimSpace, trimList]

/-- Witness for claim C3: a two-page document where page 2 fails
behaves as if page 2 were empty (and succeeds on page 1's text); a
single empty page aggregates to nothing; a one-page all-empty document
fails with the "no text extracted" error. -/
theorem claim_C3_witness :
    (processPDFByPages [.ok "hello there", .error (.plain "boom")] =
      processPDFByPages [.ok "hello there", .ok ""]) ∧
    (processPDFByPages [.ok ""] = .error (newOCRError "no text extracted from any page") ↔
      goTrimSpace (aggregatePagesGo 1 [.ok ""]) = "") ∧
    processPDFByPages (List.replicate 1 (.ok "")) =
      .error (newOCRError "no text extracted from any page") :=
  claim_C3_theorem [.ok "hello there"] [] [.ok ""] (.plain "boom") 1
    (by decide) (by decide)

/-- When an OCR engine is pinned and the chain reaches a failing
`"ocr"` extractor after only failing non-OCR extractors, the loop stops
at the OCR entry: the error result reports `fallbackUsed = false` and
the full attempted prefix ending in `"ocr"`, and the entries after the
OCR extractor are never consulted. -/
theorem attemptLoop_pinned (cfg : Config) (input : String) (isPDF : Bool)
    (hpin : cfg.ocrStrategy ≠ ocrStrategyInteractive)
    (ocrE : ExtractorSpec) (post : List ExtractorSpec)
    (hname : ocrE.name = "ocr")
    (hfail : (attemptOne cfg ocrE.name ocrE.outcome).2.isSome = true) :
    ∀ (pre : List ExtractorSpec) (i : Nat) (attempted : List String) (fb : Bool)
      (lastErr : Option GoError),
      (∀ x ∈ pre, x.name ≠ "ocr" ∧ (attemptOne cfg x.name x.outcome).2.isSome = true) →
      (attemptLoop cfg input isPDF (pre ++ ocrE :: post) i attempted fb lastErr).2.isSome
          = true ∧
      (attemptLoop cfg input isPDF (pre ++ ocrE :: post) i attempted fb
          lastErr).1.fallbackUsed = false ∧
      (attemptLoop cfg input isPDF (pre ++ ocrE :: post) i attempted fb
          lastErr).1.attemptedExtractors =
        attempted ++ pre.map (fun x => x.name) ++ ["ocr"] ∧
      attemptLoop cfg input isPDF (pre ++ ocrE :: post) i attempted fb lastErr =
        attemptLoop cfg input isPDF (pre ++ [ocrE]) i attempted fb lastErr := by
  intro pre
  induction pre with
  | nil =>
    intro i attempted fb lastErr _
    rcases hao : attemptOne cfg ocrE.name ocrE.outcome with ⟨t, o⟩
    cases o with
    | none => rw [hao] at hfail; simp at hfail
    | some err =>
      rw [hname] at hao
      by_cases himg : isPDF = true ∧ cfg.contentType = contentTypeImage
      · obtain ⟨hp, hc⟩ := himg
        refine ⟨?_, ?_, ?_, ?_⟩ <;> simp [attemptLoop, hao, hname, hp, hc]
      · rcases Bool.eq_false_or_eq_true isPDF with h | h
        · have hc : ¬ cfg.contentType = contentTypeImage := fun hc => himg ⟨h, hc⟩
          refine ⟨?_, ?_, ?_, ?_⟩ <;> simp [attemptLoop, hao, hname, hc, hpin]
        · refine ⟨?_, ?_, ?_, ?_⟩ <;> simp [attemptLoop, hao, hname, h, hpin]
  | cons x pre ih =>
    intro i attempted fb lastErr hall
    obtain ⟨hxname, hxfail⟩ := hall x (List.mem_cons_self _ _)
    rcases hx : attemptOne cfg x.name x.outcome with ⟨t, o⟩
    cases o with
    | none => rw [hx] at hxfail; simp at hxfail
    | some e2 =>
      obtain ⟨hsome, hfb, hatt, hind⟩ :=
        ih (i + 1) (attempted ++ [x.name]) (if i > 0 then true else fb) (some e2)
          (fun y hy => hall y (List.mem_cons_of_mem _ hy))
      refine ⟨?_, ?_, ?_, ?_⟩
      · simp only [List.cons_append, attemptLoop, hx]
        simpa [hxname] using hsome
      · simp only [List.cons_append, attemptLoop, hx]
        simpa [hxname] using hfb
      · simp only [List.cons_append, attemptLoop, hx]
        have := hatt
        rw [List.append_assoc] at this
        simpa [hxname] using this
      · simp only [List.cons_append, attemptLoop, hx]
        simpa [hxname] using hind

/-- Claim C2 (amended): when the caller pinned a specific OCR engine
and the OCR strategy fails (with every earlier, non-OCR strategy in the
chain also failing), the Orchestrator stops at the OCR strategy: it
returns an error whose result has `fallbackUsed = false` and
`attemptedExtractors` equal to the chain prefix up to and including
`"ocr"` — the whole prefix, not `["ocr"]`, when OCR was not first — and
it does not attempt any strategy after OCR, even one that would have
succeeded. -/
theorem claim_C2_theorem (cfg : Config) (input : String)
    (pre post : List ExtractorSpec) (ocrE : ExtractorSpec)
    (hpin : cfg.ocrStrategy ≠ ocrStrategyInteractive)
    (hname : ocrE.name = "ocr")
    (hfail : (attemptOne cfg ocrE.name ocrE.outcome).2.isSome = true)
    (hpre : ∀ x ∈ pre, x.name ≠ "ocr" ∧ (attemptOne cfg x.name x.outcome).2.isSome = true) :
    (attemptExtractionWithFallbacks cfg input (pre ++ ocrE :: post)).2.isSome = true ∧
    (attemptExtractionWithFallbacks cfg input (pre ++ ocrE :: post)).1.fallbackUsed
        = false ∧
    (attemptExtractionWithFallbacks cfg input
        (pre ++ ocrE :: post)).1.attemptedExtractors =
      pre.map (fun x => x.name) ++ ["ocr"] ∧
    attemptExtractionWithFallbacks cfg input (pre ++ ocrE :: post) =
      attemptExtractionWithFallbacks cfg input (pre ++ [ocrE]) := by
  obtain ⟨hsome, hfb, hatt, hind⟩ :=
    attemptLoop_pinned cfg input (isPDFPath input) hpin ocrE post hname hfail
      pre 0 [] false none hpre
  exact ⟨hsome, hfb, by simpa using hatt, hind⟩

/-- Witness for claim C2: text-first PDF, pinned engine, converter then
OCR fail; the result stops at `["calibre", "ocr"]` and ignores the
strategy after OCR. -/
theorem claim_C2_witness :
    (attemptExtractionWithFallbacks c2cfg "doc.pdf"
        ([⟨"calibre", .error (.plain "calibre conversion failed")⟩] ++
          ⟨"ocr", .error (.plain "surya failed")⟩ ::
          [⟨"calibre", .ok "long enough recovered text"⟩])).2.isSome = true ∧
    (attemptExtractionWithFallbacks c2cfg "doc.pdf"
        ([⟨"calibre", .error (.plain "calibre conversion failed")⟩] ++
          ⟨"ocr", .error (.plain "surya failed")⟩ ::
          [⟨"calibre", .ok "long enough recovered text"⟩])).1.fallbackUsed = false ∧
    (attemptExtractionWithFallbacks c2cfg "doc.pdf"
        ([⟨"calibre", .error (.plain "calibre conversion failed")⟩] ++
          ⟨"ocr", .error (.plain "surya failed")⟩ ::
          [⟨"calibre", .ok "long enough recovered text"⟩])).1.attemptedExtractors =
      ([⟨"calibre", .error (.plain "calibre conversion failed")⟩] :
        List ExtractorSpec).map (fun x => x.name) ++ ["ocr"] ∧
    attemptExtractionWithFallbacks c2cfg "doc.pdf"
        ([⟨"calibre", .error (.plain "calibre conversion failed")⟩] ++
          ⟨"ocr", .error (.plain "surya failed")⟩ ::
          [⟨"calibre", .ok "long enough recovered text"⟩]) =
      attemptExtractionWithFallbacks c2cfg "doc.pdf"
        ([⟨"calibre", .error (.plain "calibre conversion failed")⟩] ++
          [⟨"ocr", .error (.plain "surya failed")⟩]) :=
  claim_C2_theorem c2cfg "doc.pdf"
    [⟨"calibre", .error (.plain "calibre conversion failed")⟩]
    [⟨"calibre", .ok "long enough recovered text"⟩]
    ⟨"ocr", .error (.plain "surya failed")⟩
    (by decide) rfl (by decide) (by decide)

/-- Inversion of one chain position: the retry wrapper reports success
only when the extractor returned text meeting the threshold, and that
text is the attempt's text. -/
theorem attemptOne_none_inv (cfg : Config) (name : String)
    (outcome : Except GoError String) (t : String)
    (h : attemptOne cfg name outcome = (t, none)) :
    outcome = .ok t ∧ ¬((t.length : Int) < cfg.minTextThreshold) := by
  cases outcome with
  | error e =>
    simp [attemptOne, withRetry, withRetryTraceGo, defaultMaxRetries, wrapError,
      isRecoverable] at h
  | ok u =>
    by_cases hs : (u.length : Int) < cfg.minTextThreshold
    · simp [attemptOne, withRetry, withRetryTraceGo, defaultMaxRetries, hs,
        newValidationError, isRecoverable] at h
    · simp [attemptOne, withRetry, withRetryTraceGo, defaultMaxRetries, hs] at h
      rcases h with ⟨rfl, -⟩
      exact ⟨rfl, hs⟩

/-- A successful chain run names a strategy of the chain whose outcome
was text meeting the threshold, and returns exactly that text. -/
theorem attemptLoop_success_inv (cfg : Config) (input : String) (isPDF : Bool) :
    ∀ (es : List ExtractorSpec) (i : Nat) (attempted : List String) (fb : Bool)
      (lastErr : Option GoError) (r : ExtractionResult),
      attemptLoop cfg input isPDF es i attempted fb lastErr = (r, none) →
      r.extractorUsed ≠ "" →
      ∃ x ∈ es, x.name = r.extractorUsed ∧ x.outcome = .ok r.text ∧
        ¬((r.text.length : Int) < cfg.minTextThreshold) := by
  intro es
  induction es with
  | nil =>
    intro i attempted fb lastErr r heq hused
    cases lastErr with
    | some e => simp [attemptLoop] at heq
    | none =>
      simp [attemptLoop] at heq
      subst heq
      simp at hused
  | cons x rest ih =>
    intro i attempted fb lastErr r heq hused
    rcases hx : attemptOne cfg x.name x.outcome with ⟨t, o⟩
    cases o with
    | none =>
      obtain ⟨hout, hlen⟩ := attemptOne_none_inv cfg x.name x.outcome t hx
      by_cases ht : t = ""
      · subst ht
        cases lastErr with
        | some e' => simp [attemptLoop, hx] at heq
        | none =>
          simp [attemptLoop, hx] at heq
          subst heq
          exact ⟨x, List.mem_cons_self _ _, rfl, hout, by simpa using hlen⟩
      · simp [attemptLoop, hx, ht] at heq
        subst heq
        exact ⟨x, List.mem_cons_self _ _, rfl, hout, by simpa using hlen⟩
    | some err =>
      simp only [attemptLoop, hx] at heq
      split at heq
      · simp at heq
      · split at heq
        · simp at heq
        · exact (ih _ _ _ _ r heq hused).imp
            (fun y hy => ⟨List.mem_cons_of_mem _ hy.1, hy.2⟩)

/-- A first strategy returning below-threshold text makes the loop
record a failure and continue with the remaining strategies, provided
neither hard stop applies to it. -/
theorem attemptLoop_short_continue (cfg : Config) (input : String)
    (e : ExtractorSpec) (rest : List ExtractorSpec) (t : String)
    (hout : e.outcome = .ok t)
    (hshort : (t.length : Int) < cfg.minTextThreshold)
    (hstop : hardStop cfg (isPDFPath input) e.name = false) :
    ∃ err, (attemptOne cfg e.name e.outcome).2 = some err ∧
      attemptExtractionWithFallbacks cfg input (e :: rest) =
        attemptLoop cfg input (isPDFPath input) rest 1 [e.name] false (some err) := by
  rcases ha : attemptOne cfg e.name e.outcome with ⟨u, o⟩
  cases o with
  | none =>
    obtain ⟨hout2, hlen⟩ := attemptOne_none_inv cfg e.name e.outcome u ha
    rw [hout] at hout2
    cases hout2
    exact absurd hshort hlen
  | some err =>
    refine ⟨err, by simp [ha], ?_⟩
    simp only [hardStop, Bool.or_eq_false_iff, Bool.and_eq_false_iff] at hstop
    by_cases hn : e.name = "ocr"
    · rw [hn] at ha
      have hd : decide (e.name = "ocr") = true := by simp [hn]
      have c1 : isPDFPath input = false ∨
          decide (cfg.contentType = contentTypeImage) = false := by
        rcases hstop.1 with h | h
        · exact h
        · rw [hd] at h; cases h
      have c2 : decide (cfg.ocrStrategy ≠ ocrStrategyInteractive) = false := by
        rcases hstop.2 with h | h
        · exact h
        · rw [hd] at h; cases h
      rcases c1 with h1 | h1
      · simp [attemptExtractionWithFallbacks, attemptLoop, ha, hn, h1, c2]
      · simp [attemptExtractionWithFallbacks, attemptLoop, ha, hn, h1, c2]
    · simp [attemptExtractionWithFallbacks, attemptLoop, ha, hn]

/-- Claim C4 (amended): a strategy attempt counts as success only if
its text's length meets the configured minimum threshold, and the
Orchestrator's result text is exactly that strategy's output; a first
strategy returning shorter text is treated as a failure and the chain
continues with the next strategy — unless the failing strategy is the
OCR strategy under one of the two hard stops (image-mode PDF, or an
explicitly pinned OCR engine), in which case the chain stops. -/
theorem claim_C4_theorem :
    (∀ (cfg : Config) (input : String) (es : List ExtractorSpec) (r : ExtractionResult),
      attemptExtractionWithFallbacks cfg input es = (r, none) → r.extractorUsed ≠ "" →
      ∃ x ∈ es, x.name = r.extractorUsed ∧ x.outcome = .ok r.text ∧
        ¬((r.text.length : Int) < cfg.minTextThreshold)) ∧
    (∀ (cfg : Config) (input : String) (e : ExtractorSpec)
      (rest : List ExtractorSpec) (t : String),
      e.outcome = .ok t → (t.length : Int) < cfg.minTextThreshold →
      hardStop cfg (isPDFPath input) e.name = false →
      ∃ err, (attemptOne cfg e.name e.outcome).2 = some err ∧
        attemptExtractionWithFallbacks cfg input (e :: rest) =
          attemptLoop cfg input (isPDFPath input) rest 1 [e.name] false (some err)) := by
  constructor
  · intro cfg input es r heq hused
    exact attemptLoop_success_inv cfg input (isPDFPath input) es 0 [] false none r heq hused
  · intro cfg input e rest t hout hshort hstop
    exact attemptLoop_short_continue cfg input e rest t hout hshort hstop

/-- Witness for claim C4: a successful run of `[text]` on a long
string comes from that strategy meeting the threshold; a first strategy
`html` returning 5 characters (threshold 10, no hard stop) records a
failure and the chain continues with the remaining strategy. -/
theorem claim_C4_witness :
    (∃ x ∈ ([⟨"text", .ok "hello world content"⟩] : List ExtractorSpec),
      x.name = (attemptExtractionWithFallbacks c4cfg "a.txt"
          [⟨"text", .ok "hello world content"⟩]).1.extractorUsed ∧
      x.outcome = .ok (attemptExtractionWithFallbacks c4cfg "a.txt"
          [⟨"text", .ok "hello world content"⟩]).1.text ∧
      ¬(((attemptExtractionWithFallbacks c4cfg "a.txt"
          [⟨"text", .ok "hello world content"⟩]).1.text.length : Int) <
          c4cfg.minTextThreshold)) ∧
    (∃ err, (attemptOne c4cfg "html" (.ok "12345")).2 = some err ∧
      attemptExtractionWithFallbacks c4cfg "a.html"
          [⟨"html", .ok "12345"⟩, ⟨"calibre", .ok "plenty of text here"⟩] =
        attemptLoop c4cfg "a.html" (isPDFPath "a.html")
          [⟨"calibre", .ok "plenty of text here"⟩] 1 ["html"] false (some err)) :=
  ⟨claim_C4_theorem.1 c4cfg "a.txt" [⟨"text", .ok "hello world content"⟩]
      (attemptExtractionWithFallbacks c4cfg "a.txt"
        [⟨"text", .ok "hello world content"⟩]).1 (by decide) (by decide),
   claim_C4_theorem.2 c4cfg "a.html" ⟨"html", .ok "12345"⟩
      [⟨"calibre", .ok "plenty of text here"⟩] "12345" rfl (by decide) (by decide)⟩

/-- Claim C8 (amended): with an empty configured template the LLM
engine does not fail — whenever it reaches the external invocation it
substitutes the built-in default template (`"analyze"` for PDFs,
`"image-to-text"` for images) and proceeds, succeeding when the
external run succeeds; the template-is-mandatory rule exists only at
the CLI layer, whose check is fatal exactly for `--ocr llm-caller`
with an empty `--llm_template`. -/
theorem claim_C8_theorem (cfg : Config) (env : LLMRunEnv)
    (h : cfg.llmTemplate = "") :
    ((llmExtractTextFromPDF cfg env).invokedTemplate = none ∨
      (llmExtractTextFromPDF cfg env).invokedTemplate = some "analyze") ∧
    ((llmExtractTextFromImage cfg env).invokedTemplate = none ∨
      (llmExtractTextFromImage cfg env).invokedTemplate = some "image-to-text") ∧
    (env.cache = none → env.toolFound = true → env.runErr = none →
      ∀ c, env.outputContent = some c →
        (llmExtractTextFromPDF cfg env).result = .ok (goTrimSpace c) ∧
        (llmExtractTextFromImage cfg env).result = .ok (goTrimSpace c)) ∧
    cliLLMTemplateFatal ocrStrategyLLMCaller "" = true := by
  obtain ⟨cache, tf, re, se, oc⟩ := env
  refine ⟨?_, ?_, ?_, by decide⟩
  · cases cache with
    | some c => simp [llmExtractTextFromPDF]
    | none =>
      cases tf with
      | false => simp [llmExtractTextFromPDF]
      | true =>
        cases re with
        | some m =>
          by_cases hse : goTrimSpace se = ""
          · simp [llmExtractTextFromPDF, llmRunWithTemplate, h, hse]
          · simp [llmExtractTextFromPDF, llmRunWithTemplate, h, hse]
        | none =>
          cases oc <;> simp [llmExtractTextFromPDF, llmRunWithTemplate, h]
  · cases cache with
    | some c => simp [llmExtractTextFromImage]
    | none =>
      cases tf with
      | false => simp [llmExtractTextFromImage]
      | true =>
        cases re with
        | some m =>
          by_cases hse : goTrimSpace se = ""
          · simp [llmExtractTextFromImage, llmRunWithTemplate, h, hse]
          · simp [llmExtractTextFromImage, llmRunWithTemplate, h, hse]
        | none =>
          cases oc <;> simp [llmExtractTextFromImage, llmRunWithTemplate, h]
  · intro hc htf hre c hoc
    simp only at hc htf hre hoc
    subst hc
    subst hre
    subst htf
    subst hoc
    simp [llmExtractTextFromPDF, llmExtractTextFromImage, llmRunWithTemplate, h]

/-- Witness for claim C8: empty template, tool found, run succeeds —
both operations invoke their default template and return the run's
trimmed output. -/
theorem claim_C8_witness :
    ((llmExtractTextFromPDF c8cfg c8env).invokedTemplate = none ∨
      (llmExtractTextFromPDF c8cfg c8env).invokedTemplate = some "analyze") ∧
    ((llmExtractTextFromImage c8cfg c8env).invokedTemplate = none ∨
      (llmExtractTextFromImage c8cfg c8env).invokedTemplate = some "image-to-text") ∧
    (c8env.cache = none → c8env.toolFound = true → c8env.runErr = none →
      ∀ c, c8env.outputContent = some c →
        (llmExtractTextFromPDF c8cfg c8env).result = .ok (goTrimSpace c) ∧
        (llmExtractTextFromImage c8cfg c8env).result = .ok (goTrimSpace c)) ∧
    cliLLMTemplateFatal ocrStrategyLLMCaller "" = true :=
  claim_C8_theorem c8cfg c8env rfl

/-- Claim C10: starting from a page with no cached text file, the page
loop writes `page_N.txt` exactly when the engine returned non-empty
text (and with exactly that text), a failed or empty page leaves no
text file, and a page with no text file is re-processed — the engine is
invoked again whenever the page is reachable (its PDF exists and, for a
rasterizing engine, conversion succeeds) rather than being treated as
done. -/
theorem claim_C10_theorem (n : Nat) (env : PageEnv)
    (hnofile : env.pageTextFile = none) :
    (∀ t, (processPageWithProgress n env).2.1 = some t →
      t ≠ "" ∧ env.engineResult = .ok t) ∧
    ((env.engineResult = .ok "" ∨ ∃ e, env.engineResult = .error e) →
      (processPageWithProgress n env).2.1 = none) ∧
    (env.pagePDFExists = true →
      (env.supportsDirectPDF = true ∨ env.convertErr = none) →
      (processPageWithProgress n env).2.2 = true) := by
  obtain ⟨ptf, pdfE, sup, cerr, eres⟩ := env
  simp only at hnofile
  subst hnofile
  refine ⟨?_, ?_, ?_⟩
  · intro t ht
    cases pdfE with
    | false => simp [processPageWithProgress] at ht
    | true =>
      cases sup with
      | true =>
        cases eres with
        | error e => simp [processPageWithProgress] at ht
        | ok u =>
          by_cases hu : u = ""
          · simp [processPageWithProgress, hu] at ht
          · simp [processPageWithProgress, hu] at ht
            subst ht
            exact ⟨hu, rfl⟩
      | false =>
        cases cerr with
        | some e => simp [processPageWithProgress] at ht
        | none =>
          cases eres with
          | error e => simp [processPageWithProgress] at ht
          | ok u =>
            by_cases hu : u = ""
            · simp [processPageWithProgress, hu] at ht
            · simp [processPageWithProgress, hu] at ht
              subst ht
              exact ⟨hu, rfl⟩
  · intro hcase
    cases pdfE <;> cases sup <;> cases cerr <;>
      rcases hcase with h | ⟨e, h⟩ <;> simp only at h <;> subst h <;>
      simp [processPageWithProgress]
  · intro hpdf hreach
    simp only at hpdf
    subst hpdf
    cases sup with
    | true =>
      cases eres with
      | error e => simp [processPageWithProgress]
      | ok u =>
        by_cases hu : u = "" <;> simp [processPageWithProgress, hu]
    | false =>
      rcases hreach with h | h
      · simp at h
      · simp only at h
        subst h
        cases eres with
        | error e => simp [processPageWithProgress]
        | ok u =>
          by_cases hu : u = "" <;> simp [processPageWithProgress, hu]

/-- Witness for claim C10: an uncached, reachable page whose engine
returns "page text" gets exactly that text persisted, and the engine is
invoked. -/
theorem claim_C10_witness :
    (∀ t, (processPageWithProgress 1 ⟨none, true, true, none, .ok "page text"⟩).2.1 =
        some t → t ≠ "" ∧ (PageEnv.mk none true true none (.ok "page text")).engineResult
        = .ok t) ∧
    (((PageEnv.mk none true true none (.ok "page text")).engineResult = .ok "" ∨
      ∃ e, (PageEnv.mk none true true none (.ok "page text")).engineResult = .error e) →
      (processPageWithProgress 1 ⟨none, true, true, none, .ok "page text"⟩).2.1 = none) ∧
    ((PageEnv.mk none true true none (.ok "page text")).pagePDFExists = true →
      ((PageEnv.mk none true true none (.ok "page text")).supportsDirectPDF = true ∨
        (PageEnv.mk none true true none (.ok "page text")).convertErr = none) →
      (processPageWithProgress 1 ⟨none, true, true, none, .ok "page text"⟩).2.2 = true) :=
  claim_C10_theorem 1 ⟨none, true, true, none, .ok "page text"⟩ rfl

/-- Claim C9: with caching enabled (`SkipExisting`), a successful run
followed by a second run on the unchanged input (output path distinct
from the input and non-empty) yields the same `text`, and the second
run's `extractorUsed` is the `"cached"` sentinel — the cached final
text is returned immediately, no extraction strategy is re-invoked. -/
theorem claim_C9_theorem (cfg : Config) (oracle : String → Except GoError String)
    (input output : String) (fs : FS) (r : ExtractionResult) (fs2 : FS)
    (hskip : cfg.skipExisting = true) (hout : output ≠ "") (hio : output ≠ input)
    (h1 : processFile cfg oracle input output fs = .ok (r, fs2)) :
    ∃ r2, processFile cfg oracle input output fs2 = .ok (r2, fs2) ∧
      r2.text = r.text ∧ r2.extractorUsed = "cached" := by
  have hio2 : ¬ input = output := fun h => hio h.symm
  by_cases hin : input = ""
  · simp [processFile, hin] at h1
  cases hfs : fs input with
  | none => simp [processFile, hin, hfs] at h1
  | some content =>
    by_cases hsize : content.length > maxFileSize
    · simp [processFile, hin, hfs, hsize] at h1
    by_cases hcached : (fs output).isSome
    · -- the first run is itself a cache hit: fs is unchanged
      simp [processFile, hin, hfs, hsize, hskip, hout, hcached] at h1
      obtain ⟨hr, hfs2⟩ := h1
      subst hfs2
      refine ⟨({ text := (fs output).getD "",
                 source := input,
                 extractorUsed := "cached",
                 fallbackUsed := false,
                 attemptedExtractors := [],
                 errMsg := "",
                 processTime := 0 } : ExtractionResult), ?_, ?_, ?_⟩
      · simp [processFile, hin, hfs, hsize, hskip, hout, hcached]
      · rw [← hr]
      · rfl
    · have hnone : fs output = none := by
        cases hq : fs output
        · rfl
        · rw [hq] at hcached; simp at hcached
      cases hch : createExtractorWithFallbacks defaultRegistered cfg
          (fileInfoExtension input) with
      | error e =>
        simp [processFile, hin, hfs, hsize, hskip, hout, hnone, hch] at h1
      | ok names =>
        rcases hatt : attemptExtractionWithFallbacks cfg input
            (names.map fun n => { name := n, outcome := oracle n }) with ⟨r0, err0⟩
        cases err0 with
        | some e0 =>
          simp [processFile, hin, hfs, hsize, hskip, hout, hnone, hch, hatt] at h1
        | none =>
          simp [processFile, hin, hfs, hsize, hskip, hout, hnone, hch, hatt] at h1
          obtain ⟨hr, hfs2⟩ := h1
          subst hfs2
          have hfs2in : fsWrite fs output r0.text input = some content := by
            simp [fsWrite, hio2, hfs]
          have hfs2out : fsWrite fs output r0.text output = some r0.text := by
            simp [fsWrite]
          refine ⟨({ text := r0.text,
                     source := input,
                     extractorUsed := "cached",
                     fallbackUsed := false,
                     attemptedExtractors := [],
                     errMsg := "",
                     processTime := 0 } : ExtractionResult), ?_, ?_, ?_⟩
          · simp [processFile, hin, hfs2in, hsize, hskip, hout, hfs2out]
          · rw [← hr]
          · rfl

/-- Witness for claim C9: a concrete first run over the plain-text
chain writes the output file; the instantiated theorem yields the
cached second run with identical text. -/
theorem claim_C9_witness :
    ∃ r2, processFile c9cfg c9oracle "a.txt" "out.txt"
        (fsWrite c9fs "out.txt" "hello world content") =
      .ok (r2, fsWrite c9fs "out.txt" "hello world content") ∧
      r2.text = c9result.text ∧
      r2.extractorUsed = "cached" :=
  claim_C9_theorem c9cfg c9oracle "a.txt" "out.txt" c9fs c9result
    (fsWrite c9fs "out.txt" "hello world content")
    rfl (by decide) (by decide) rfl

/-- Trimming a newline-terminated list whose body starts and ends with
non-whitespace strips exactly the final newline. -/
theorem trimList_wrap (T : List Char) (c d : Char)
    (hh : T.head? = some c) (hc : isGoSpace c = false)
    (hl : T.reverse.head? = some d) (hd : isGoSpace d = false) :
    trimList (T ++ ['\n']) = T := by
  cases T with
  | nil => simp at hh
  | cons a rest =>
    have hac : a = c := by simpa using hh
    subst hac
    unfold trimList
    have h1 : (a :: rest ++ ['\n']).dropWhile isGoSpace = a :: rest ++ ['\n'] := by
      rw [List.cons_append, List.dropWhile_cons]
      simp [hc]
    rw [List.cons_append] at h1 ⊢
    rw [h1]
    have h2 : (a :: (rest ++ ['\n'])).reverse = '\n' :: (a :: rest).reverse := by
      rw [← List.cons_append, List.reverse_append]
      rfl
    rw [h2, List.dropWhile_cons]
    have hnl : isGoSpace '\n' = true := by decide
    rw [hnl]
    simp only [if_true]
    cases hrev : (a :: rest).reverse with
    | nil => simp at hrev
    | cons b tail =>
      have hbd : b = d := by
        rw [hrev] at hl
        simpa using hl
      subst hbd
      rw [List.dropWhile_cons]
      rw [hd]
      simp only [Bool.false_eq_true, if_false]
      rw [← hrev, List.reverse_reverse]

/-- Claim C7 (amended): for a results record of two pages with two text
lines each, parsing yields the `text` fields newline-joined in
page-then-line order, discarding every confidence, polygon, bbox,
language and page-number field (the output is identical for all values
of those fields) — provided no line is whitespace-only (such lines are
skipped by the parser) and the aggregate is trim-stable at its ends;
across multiple file records the order is the Go map's iteration
order. -/
theorem claim_C7_theorem (f t1 t2 t3 t4 : String) (c1 c2 c3 c4 : Rat)
    (p1 p2 p3 p4 : List (List Rat)) (b1 b2 b3 b4 : List Rat)
    (ls1 ls2 : List String) (ib1 ib2 : List Rat) (pg1 pg2 : Int)
    (h1 : headNonSpace t1 = true) (h4 : lastNonSpace t4 = true)
    (ht1 : goTrimSpace t1 ≠ "") (ht2 : goTrimSpace t2 ≠ "")
    (ht3 : goTrimSpace t3 ≠ "") (ht4 : goTrimSpace t4 ≠ "") :
    parseOCRResults [(f, [⟨[⟨t1, c1, p1, b1⟩, ⟨t2, c2, p2, b2⟩], ls1, ib1, pg1⟩,
        ⟨[⟨t3, c3, p3, b3⟩, ⟨t4, c4, p4, b4⟩], ls2, ib2, pg2⟩])] =
      .ok (t1 ++ "\n" ++ t2 ++ "\n" ++ t3 ++ "\n" ++ t4) := by
  rcases hdd : t1.data with _ | ⟨c, cs⟩
  · simp [headNonSpace, hdd] at h1
  rcases hrr : t4.data.reverse with _ | ⟨d, ds⟩
  · simp [lastNonSpace, hrr] at h4
  have hc : isGoSpace c = false := by
    simpa [headNonSpace, hdd] using h1
  have hd : isGoSpace d = false := by
    simpa [lastNonSpace, hrr] using h4
  have hdata : (suryaBuilder [(f, [⟨[⟨t1, c1, p1, b1⟩, ⟨t2, c2, p2, b2⟩], ls1, ib1, pg1⟩,
      ⟨[⟨t3, c3, p3, b3⟩, ⟨t4, c4, p4, b4⟩], ls2, ib2, pg2⟩])]).data =
      (t1 ++ "\n" ++ t2 ++ "\n" ++ t3 ++ "\n" ++ t4).data ++ ['\n'] := by
    simp [suryaBuilder, String.join, ht1, ht2, ht3, ht4, String.data_append,
      List.append_assoc]
  have hh : (t1 ++ "\n" ++ t2 ++ "\n" ++ t3 ++ "\n" ++ t4).data.head? = some c := by
    simp [String.data_append, hdd]
  have hl : (t1 ++ "\n" ++ t2 ++ "\n" ++ t3 ++ "\n" ++ t4).data.reverse.head?
      = some d := by
    simp [String.data_append, List.reverse_append, hrr]
  have htrim : goTrimSpace (suryaBuilder [(f,
      [⟨[⟨t1, c1, p1, b1⟩, ⟨t2, c2, p2, b2⟩], ls1, ib1, pg1⟩,
       ⟨[⟨t3, c3, p3, b3⟩, ⟨t4, c4, p4, b4⟩], ls2, ib2, pg2⟩])]) =
      t1 ++ "\n" ++ t2 ++ "\n" ++ t3 ++ "\n" ++ t4 := by
    rw [goTrimSpace, hdata, trimList_wrap _ c d hh hc hl hd]
  have hne : t1 ++ "\n" ++ t2 ++ "\n" ++ t3 ++ "\n" ++ t4 ≠ "" := by
    intro hcontra
    have : (t1 ++ "\n" ++ t2 ++ "\n" ++ t3 ++ "\n" ++ t4).data = [] := by
      rw [hcontra]
    rw [String.data_append, String.data_append, String.data_append,
      String.data_append, String.data_append, String.data_append, hdd] at this
    simp at this
  simp [parseOCRResults, htrim, hne]

/-- Witness for claim C7: two pages of two non-blank lines with
arbitrary-looking geometry parse to the four texts newline-joined. -/
theorem claim_C7_witness :
    parseOCRResults [("f.png",
      [⟨[⟨"alpha", 1/2, [[0, 1]], [2, 3]⟩, ⟨"beta", 2/3, [[4]], [5]⟩], ["en"], [0], 1⟩,
       ⟨[⟨"gamma", 3/4, [], []⟩, ⟨"delta", 4/5, [[6, 7]], [8]⟩], ["en"], [1], 2⟩])] =
      .ok ("alpha" ++ "\n" ++ "beta" ++ "\n" ++ "gamma" ++ "\n" ++ "delta") :=
  claim_C7_theorem "f.png" "alpha" "beta" "gamma" "delta" (1/2) (2/3) (3/4) (4/5)
    [[0, 1]] [[4]] [] [[6, 7]] [2, 3] [5] [] [8] ["en"] ["en"] [0] [1] 1 2
    (by decide) (by decide) (by decide) (by decide) (by decide) (by decide)

end DocToText
